import Mathlib

/-!
Verification development for the stock signal dashboard
(src/stock_signal_dashboard.py).

The script fetches a price frame, computes RSI / MACD / Bollinger-band
columns over the valid closes, derives per-row Buy_Signal / Sell_Signal
booleans, classifies the latest row, and pushes notifications through a
Telegram HTTP call and an SMTP email call, looping forever on a
configurable refresh interval.

Shallow embedding conventions:
* a pandas cell that may be NaN is `Option ℚ` (`none` = NaN / undefined);
* pandas comparisons propagate NaN as `False`, modelled by `pandasLt` /
  `pandasGt`;
* `st.error` / `st.warning` messages are collected in a `List String`
  output instead of being rendered;
* calls into the external `ta` / `yfinance` / network libraries are
  opaque: they are passed in as function-valued parameters that either
  return a value or raise (`Except String` / an outcome parameter),
  mirroring the `try/except` structure of the Python code.
-/

namespace SSD

/-! ## Data model -/

/-- One row of the dashboard's DataFrame.  `close` is the coerced Close
cell (`none` = NaN); `extra` stands for the remaining original columns
(Open, High, Low, Volume, ...); the other fields are the columns that
`compute_signals` appends (`none` = NaN or column not yet assigned). -/
structure Row where
  close : Option ℚ
  extra : List ℚ
  rsi : Option ℚ
  macd : Option ℚ
  signal : Option ℚ
  bbHigh : Option ℚ
  bbLow : Option ℚ
  buy : Option Bool
  sell : Option Bool
  deriving DecidableEq, Repr

/-- A DataFrame: which columns are present, plus the row data. -/
structure Frame where
  hasClose : Bool
  hasRSI : Bool
  hasMACD : Bool
  hasSignal : Bool
  hasBBHigh : Bool
  hasBBLow : Bool
  hasBuy : Bool
  hasSell : Bool
  rows : List Row
  deriving DecidableEq, Repr

/-- `pd.DataFrame()`: no columns, no rows. -/
def emptyFrame : Frame :=
  ⟨false, false, false, false, false, false, false, false, []⟩

/-- Pandas `a < b` on possibly-NaN cells: any comparison with NaN is
`False`. -/
def pandasLt (a b : Option ℚ) : Bool :=
  match a, b with
  | some x, some y => decide (x < y)
  | _, _ => false

/-- Pandas `a > b` on possibly-NaN cells: any comparison with NaN is
`False`. -/
def pandasGt (a b : Option ℚ) : Bool :=
  match a, b with
  | some x, some y => decide (y < x)
  | _, _ => false

/-! ## SignalEvaluator (lines 94-95 and 154-165) -/

/-- Line 94: `(df["MACD"] > df["Signal"]) & (df["RSI"] < 30) & (df["Close"] < df["BB_Low"])`. -/
def buySignalRow (r : Row) : Bool :=
  pandasGt r.macd r.signal && pandasLt r.rsi (some 30) && pandasLt r.close r.bbLow

/-- Line 95: `(df["MACD"] < df["Signal"]) & (df["RSI"] > 70) & (df["Close"] > df["BB_High"])`. -/
def sellSignalRow (r : Row) : Bool :=
  pandasLt r.macd r.signal && pandasGt r.rsi (some 70) && pandasGt r.close r.bbHigh

/-- The classification the main loop renders for the latest row. -/
inductive SignalState where
  | BUY
  | SELL
  | NEUTRAL
  deriving DecidableEq, Repr

/-- Lines 154-165 composed with lines 94-95: the signal evaluation of a
row (`if latest["Buy_Signal"]: ... elif latest["Sell_Signal"]: ... else ...`). -/
def evaluateLatest (r : Row) : SignalState :=
  if buySignalRow r then SignalState.BUY
  else if sellSignalRow r then SignalState.SELL
  else SignalState.NEUTRAL

/-- Concrete row refuting claim C1: `bb_high` is undefined (NaN) while the
BUY inputs are defined and satisfied, so the code classifies BUY, not
NEUTRAL. -/
def c1Row : Row :=
  { close := some 98, extra := [], rsi := some 25, macd := some 2
    signal := some 1, bbHigh := none, bbLow := some 100
    buy := none, sell := none }

/-! ## IndicatorEngine: `compute_signals` (lines 77-98)

The `ta` library calls are opaque external code.  Each call site of the
`try` block (three constructors, five accessor calls) is a slot of
`TaLib`; a slot either returns (`Except.ok`) or raises
(`Except.error cause`), exactly mirroring where an exception can enter
the Python `try` block.  The library objects are deterministic functions
of the close series and the window parameters, so the accessor slots take
those inputs directly. -/

/-- Opaque model of the `ta` indicator library calls made by
`compute_signals`:
`RSIIndicator(close, window)`, `MACD(close, fast, slow, sign)`,
`BollingerBands(close)`, then `rsi.rsi()`, `macd.macd()`,
`macd.macd_signal()`, `bb.bollinger_hband()`, `bb.bollinger_lband()`. -/
structure TaLib where
  rsiNew : List ℚ → Nat → Except String Unit
  macdNew : List ℚ → Nat → Nat → Nat → Except String Unit
  bbNew : List ℚ → Except String Unit
  rsiVal : List ℚ → Nat → Except String (List (Option ℚ))
  macdVal : List ℚ → Nat → Nat → Nat → Except String (List (Option ℚ))
  macdSignalVal : List ℚ → Nat → Nat → Nat → Except String (List (Option ℚ))
  bbHighVal : List ℚ → Except String (List (Option ℚ))
  bbLowVal : List ℚ → Except String (List (Option ℚ))

/-- Line 81: `df = df.dropna(subset=["Close"])`. -/
def dropnaClose (df : Frame) : Frame :=
  { df with rows := df.rows.filter (fun r => r.close.isSome) }

/-- The close series handed to the indicator constructors (all retained
rows have a defined close after `dropna`). -/
def closesOf (df : Frame) : List ℚ :=
  df.rows.filterMap (fun r => r.close)

/-- Pandas column assignment `df[col] = series`: positional alignment,
rows beyond the series length get NaN. -/
def setColumnRows (set : Row → Option ℚ → Row) :
    List Row → List (Option ℚ) → List Row
  | [], _ => []
  | r :: rs, [] => set r none :: setColumnRows set rs []
  | r :: rs, v :: vs => set r v :: setColumnRows set rs vs

/-- Line 89: `df["RSI"] = rsi.rsi()`. -/
def setRSI (df : Frame) (v : List (Option ℚ)) : Frame :=
  { df with hasRSI := true
            rows := setColumnRows (fun r x => { r with rsi := x }) df.rows v }

/-- Line 90: `df["MACD"] = macd.macd()`. -/
def setMACD (df : Frame) (v : List (Option ℚ)) : Frame :=
  { df with hasMACD := true
            rows := setColumnRows (fun r x => { r with macd := x }) df.rows v }

/-- Line 91: `df["Signal"] = macd.macd_signal()`. -/
def setSignalCol (df : Frame) (v : List (Option ℚ)) : Frame :=
  { df with hasSignal := true
            rows := setColumnRows (fun r x => { r with signal := x }) df.rows v }

/-- Line 92: `df["BB_High"] = bb.bollinger_hband()`. -/
def setBBHigh (df : Frame) (v : List (Option ℚ)) : Frame :=
  { df with hasBBHigh := true
            rows := setColumnRows (fun r x => { r with bbHigh := x }) df.rows v }

/-- Line 93: `df["BB_Low"] = bb.bollinger_lband()`. -/
def setBBLow (df : Frame) (v : List (Option ℚ)) : Frame :=
  { df with hasBBLow := true
            rows := setColumnRows (fun r x => { r with bbLow := x }) df.rows v }

/-- Line 94: `df["Buy_Signal"] = ...` (per-row boolean). -/
def setBuy (df : Frame) : Frame :=
  { df with hasBuy := true
            rows := df.rows.map (fun r => { r with buy := some (buySignalRow r) }) }

/-- Line 95: `df["Sell_Signal"] = ...` (per-row boolean). -/
def setSell (df : Frame) : Frame :=
  { df with hasSell := true
            rows := df.rows.map (fun r => { r with sell := some (sellSignalRow r) }) }

def closeMissingMsg : String := "Close column missing or invalid."

def noValidDataMsg : String := "No valid data after dropping NaNs."

def indicatorErrMsg (e : String) : String := "Error computing indicators: " ++ e

/-- Lines 77-98: `compute_signals(df, rsi_period, macd_fast, macd_slow,
macd_signal)`.  The first component collects the `st.error` messages, the
second is the returned frame.  On an exception inside the `try` block the
`except` branch renders the error and falls through to `return df`, i.e.
the frame keeps whatever columns were assigned before the raise. -/
def computeSignals (ta : TaLib) (df : Frame)
    (rsiPeriod macdFast macdSlow macdSignalPeriod : Nat) :
    List String × Frame :=
  if !df.hasClose || df.rows.all (fun r => r.close.isNone) then
    ([closeMissingMsg], df)
  else
    let df1 := dropnaClose df
    if df1.rows.isEmpty then
      ([noValidDataMsg], df1)
    else
      let closes := closesOf df1
      match ta.rsiNew closes rsiPeriod with
      | .error e => ([indicatorErrMsg e], df1)
      | .ok _ =>
        match ta.macdNew closes macdFast macdSlow macdSignalPeriod with
        | .error e => ([indicatorErrMsg e], df1)
        | .ok _ =>
          match ta.bbNew closes with
          | .error e => ([indicatorErrMsg e], df1)
          | .ok _ =>
            match ta.rsiVal closes rsiPeriod with
            | .error e => ([indicatorErrMsg e], df1)
            | .ok rsiL =>
              let df2 := setRSI df1 rsiL
              match ta.macdVal closes macdFast macdSlow macdSignalPeriod with
              | .error e => ([indicatorErrMsg e], df2)
              | .ok macdL =>
                let df3 := setMACD df2 macdL
                match ta.macdSignalVal closes macdFast macdSlow macdSignalPeriod with
                | .error e => ([indicatorErrMsg e], df3)
                | .ok sigL =>
                  let df4 := setSignalCol df3 sigL
                  match ta.bbHighVal closes with
                  | .error e => ([indicatorErrMsg e], df4)
                  | .ok bhL =>
                    let df5 := setBBHigh df4 bhL
                    match ta.bbLowVal closes with
                    | .error e => ([indicatorErrMsg e], df5)
                    | .ok blL =>
                      let df6 := setBBLow df5 blL
                      ([], setSell (setBuy df6))

/-- The original per-row data: the Close value and all other original
column values.  `compute_signals` must leave these untouched. -/
def closeExtra (r : Row) : Option ℚ × List ℚ := (r.close, r.extra)

/-- Streamlit session rendering: a run of `compute_signals` appends its
`st.error` output to the messages already rendered this session and
yields the returned frame. -/
def computeSignalsRun (w : List String) (ta : TaLib) (df : Frame)
    (p1 p2 p3 p4 : Nat) : List String × Frame :=
  (w ++ (computeSignals ta df p1 p2 p3 p4).1, (computeSignals ta df p1 p2 p3 p4).2)

/-- A `ta` library run in which every call returns normally. -/
def taOk : TaLib where
  rsiNew := fun _ _ => .ok ()
  macdNew := fun _ _ _ _ => .ok ()
  bbNew := fun _ => .ok ()
  rsiVal := fun closes _ => .ok (closes.map some)
  macdVal := fun closes _ _ _ => .ok (closes.map some)
  macdSignalVal := fun closes _ _ _ => .ok (closes.map some)
  bbHighVal := fun closes => .ok (closes.map some)
  bbLowVal := fun closes => .ok (closes.map some)

/-- A `ta` library run in which `macd.macd()` raises after `df["RSI"]`
was already assigned (line 90 raising after line 89 succeeded). -/
def taMacdFails : TaLib where
  rsiNew := fun _ _ => .ok ()
  macdNew := fun _ _ _ _ => .ok ()
  bbNew := fun _ => .ok ()
  rsiVal := fun closes _ => .ok (closes.map some)
  macdVal := fun _ _ _ _ => .error "degenerate input"
  macdSignalVal := fun closes _ _ _ => .ok (closes.map some)
  bbHighVal := fun closes => .ok (closes.map some)
  bbLowVal := fun closes => .ok (closes.map some)

/-- A price row as fetched, before any indicator column exists. -/
def mkCloseRow (c : Option ℚ) (ex : List ℚ) : Row :=
  { close := c, extra := ex, rsi := none, macd := none, signal := none
    bbHigh := none, bbLow := none, buy := none, sell := none }

/-- A one-row fetched price frame with a valid close. -/
def sampleDf : Frame :=
  { hasClose := true, hasRSI := false, hasMACD := false, hasSignal := false
    hasBBHigh := false, hasBBLow := false, hasBuy := false, hasSell := false
    rows := [mkCloseRow (some 100) []] }

/-- A two-row fetched price frame: one valid close, one NaN close. -/
def sampleDf2 : Frame :=
  { hasClose := true, hasRSI := false, hasMACD := false, hasSignal := false
    hasBBHigh := false, hasBBLow := false, hasBuy := false, hasSell := false
    rows := [mkCloseRow (some 100) [1], mkCloseRow none [2]] }

/-! ## MarketDataSource: `get_stock_data` (lines 29-49) -/

/-- A raw provider cell for the Close column before
`pd.to_numeric(..., errors="coerce")`: numeric, or non-numeric text. -/
inductive RawVal where
  | num (q : ℚ)
  | text (s : String)
  deriving DecidableEq, Repr

/-- A raw provider row. -/
structure RawRow where
  close : RawVal
  extra : List ℚ
  deriving DecidableEq, Repr

/-- The raw provider frame as returned by `yf.download` (after the
column normalisation of lines 37-41, which only renames labels). -/
structure RawFrame where
  hasClose : Bool
  rows : List RawRow
  deriving DecidableEq, Repr

/-- What the `yf.download` call does on this tick: raise, or return a
frame. -/
inductive ProviderOutcome where
  | raises (cause : String)
  | returns (df : RawFrame)
  deriving DecidableEq, Repr

/-- Line 42: `pd.to_numeric(..., errors="coerce")` on one cell. -/
def to_numeric : RawVal → Option ℚ
  | .num q => some q
  | .text _ => none

/-- Coercion of a raw row into the canonical row shape (Close coerced,
other columns carried over, no indicator columns yet). -/
def mkRow (r : RawRow) : Row :=
  { close := to_numeric r.close, extra := r.extra, rsi := none, macd := none
    signal := none, bbHigh := none, bbLow := none, buy := none, sell := none }

/-- Lines 31-49: `get_stock_data(symbol, ...)`.  First component: the
`st.error` messages; second: the returned frame.  Every failure class —
provider exception, empty result, missing Close (a `KeyError` at line 42
caught by the `except`), all-non-numeric Close — returns
`pd.DataFrame()`. -/
def get_stock_data (symbol : String) (o : ProviderOutcome) : List String × Frame :=
  match o with
  | .raises c =>
      (["Error fetching data for " ++ symbol ++ ": " ++ c], emptyFrame)
  | .returns raw =>
      if raw.rows.isEmpty then
        (["No data found for " ++ symbol ++ ". Please check the symbol."], emptyFrame)
      else if !raw.hasClose then
        (["Error fetching data for " ++ symbol ++ ": KeyError"], emptyFrame)
      else
        let rows := raw.rows.map mkRow
        if rows.all (fun r => r.close.isNone) then
          (["Invalid Close data for " ++ symbol ++ "."], emptyFrame)
        else
          ([], { hasClose := true, hasRSI := false, hasMACD := false
                 hasSignal := false, hasBBHigh := false, hasBBLow := false
                 hasBuy := false, hasSell := false, rows := rows })

/-! ## Caching (`@st.cache_data(ttl=300)`, line 30) and the refresh loop -/

/-- Line 30: the TTL of the `st.cache_data` decorator on
`get_stock_data`, in seconds. -/
def get_stock_data_cache_ttl : Nat := 300

/-- Line 126: lower bound of the refresh-interval slider (seconds). -/
def refresh_interval_min : Nat := 10

/-- Line 126: upper bound of the refresh-interval slider (seconds). -/
def refresh_interval_max : Nat := 300

/-- A cached `get_stock_data` return value with its storage time. -/
structure CacheEntry where
  value : Frame
  storedAt : Nat
  deriving DecidableEq, Repr

/-- The `st.cache_data` state for one (symbol, period, interval) key. -/
structure CacheState where
  entry : Option CacheEntry
  deriving DecidableEq, Repr

/-- The observable outcome of one cached fetch call. -/
structure FetchTick where
  frame : Frame
  cache : CacheState
  providerCalled : Bool
  deriving DecidableEq, Repr

/-- `st.cache_data(ttl=...)` semantics around `get_stock_data`: a stored
value younger than the TTL is returned without running the function (and
thus without any provider call); otherwise the function runs and its
return value — including the empty frame produced by a failed fetch — is
stored. -/
def cachedGetStockData (ttl now : Nat) (symbol : String) (o : ProviderOutcome)
    (c : CacheState) : FetchTick :=
  match c.entry with
  | some e =>
      if now - e.storedAt < ttl then
        ⟨e.value, c, false⟩
      else
        ⟨(get_stock_data symbol o).2, ⟨some ⟨(get_stock_data symbol o).2, now⟩⟩, true⟩
  | none =>
      ⟨(get_stock_data symbol o).2, ⟨some ⟨(get_stock_data symbol o).2, now⟩⟩, true⟩

/-- A raw frame for which the fetch succeeds. -/
def sampleRaw : RawFrame :=
  ⟨true, [⟨.num 100, []⟩, ⟨.num 101, []⟩]⟩

/-- A raw provider frame with no rows (the `df.empty` failure class). -/
def rawEmpty : RawFrame := ⟨true, []⟩

/-- A raw provider frame in which every Close cell is non-numeric (the
`isna().all()` failure class). -/
def rawBadClose : RawFrame := ⟨true, [⟨.text "not a number", []⟩]⟩

/-! ## NotificationDispatcher (lines 17-27, 51-75, 154-163) -/

/-- The environment credentials read at lines 17-21 (`None` = variable
unset; the empty string is also falsy in the `not all([...])` checks). -/
structure Env where
  TELEGRAM_TOKEN : Option String
  TELEGRAM_CHAT_ID : Option String
  EMAIL_SENDER : Option String
  EMAIL_PASSWORD : Option String
  EMAIL_RECEIVER : Option String
  deriving DecidableEq, Repr

/-- Python truthiness of an optional environment string: `None` and `""`
are falsy. -/
def truthy : Option String → Bool
  | none => false
  | some s => !(s == "")

/-- Line 52: `not TELEGRAM_TOKEN or not TELEGRAM_CHAT_ID` negated. -/
def telegramConfigured (env : Env) : Bool :=
  truthy env.TELEGRAM_TOKEN && truthy env.TELEGRAM_CHAT_ID

/-- Line 63: `all([EMAIL_SENDER, EMAIL_PASSWORD, EMAIL_RECEIVER])`. -/
def emailConfigured (env : Env) : Bool :=
  truthy env.EMAIL_SENDER && truthy env.EMAIL_PASSWORD && truthy env.EMAIL_RECEIVER

/-- The HTTP POST of line 57 with its keyword arguments. -/
structure HttpPostCall where
  url : String
  timeoutSeconds : Option Nat
  deriving DecidableEq, Repr

/-- The `smtplib.SMTP_SSL` connection of line 70 with its arguments. -/
structure SmtpCall where
  host : String
  port : Nat
  timeoutSeconds : Option Nat
  deriving DecidableEq, Repr

/-- Line 54 and 57: the Telegram request, posted with `timeout=5`. -/
def telegramHttpCall (token : String) : HttpPostCall :=
  ⟨"https://api.telegram.org/bot" ++ token ++ "/sendMessage", some 5⟩

/-- Line 70: `smtplib.SMTP_SSL('smtp.gmail.com', 465)` — no `timeout`
keyword is passed, so the connection has no per-attempt timeout. -/
def smtpSslCall : SmtpCall :=
  ⟨"smtp.gmail.com", 465, none⟩

/-- One outbound send attempt actually performed on a channel. -/
inductive SendEvent where
  | telegram (call : HttpPostCall) (chatId text : String)
  | email (call : SmtpCall) (sender receiver subject body : String)
  deriving DecidableEq, Repr

def isTelegramEvent : SendEvent → Bool
  | .telegram _ _ _ => true
  | .email _ _ _ _ _ => false

def isEmailEvent : SendEvent → Bool
  | .telegram _ _ _ => false
  | .email _ _ _ _ _ => true

/-- The per-attempt timeout carried by a send attempt. -/
def eventTimeout : SendEvent → Option Nat
  | .telegram call _ _ => call.timeoutSeconds
  | .email call _ _ _ _ => call.timeoutSeconds

/-- Lines 51-60: `send_telegram_message(message)`.  `failCause = some c`
means the POST (or `raise_for_status`) raised with message `c`.  Returns
the attempts made and the `st.warning` messages. -/
def send_telegram_message (env : Env) (failCause : Option String)
    (message : String) : List SendEvent × List String :=
  if !(telegramConfigured env) then
    ([], [])
  else
    let ev := SendEvent.telegram (telegramHttpCall (env.TELEGRAM_TOKEN.getD ""))
      (env.TELEGRAM_CHAT_ID.getD "") message
    match failCause with
    | none => ([ev], [])
    | some c => ([ev], ["Failed to send Telegram message: " ++ c])

/-- Lines 62-75: `send_email_notification(message)`.  `failCause = some c`
means login/sendmail raised with message `c`.  Returns the attempts made
and the `st.warning` messages (the `st.success` info line is not an
error and is not modelled).  The subject uses `symbol.upper()`; `symbol`
is already uppercased at line 125 and `upper()` is idempotent, so the
subject carries `symbol` as given here. -/
def send_email_notification (env : Env) (symbol : String)
    (failCause : Option String) (message : String) :
    List SendEvent × List String :=
  if !(emailConfigured env) then
    ([], [])
  else
    let ev := SendEvent.email smtpSslCall (env.EMAIL_SENDER.getD "")
      (env.EMAIL_RECEIVER.getD "")
      ("Stock Signal Alert for " ++ symbol) message
    match failCause with
    | none => ([ev], [])
    | some c => ([ev], ["Failed to send email: " ++ c])

/-- Lines 154-163: on a BUY or SELL tick the loop calls
`send_telegram_message` and then, only if the email checkbox is enabled,
`send_email_notification`. -/
def notifySignal (env : Env) (enableEmail : Bool) (symbol : String)
    (tgFail emFail : Option String) (message : String) :
    List SendEvent × List String :=
  ((send_telegram_message env tgFail message).1 ++
     (if enableEmail then (send_email_notification env symbol emFail message).1 else []),
   (send_telegram_message env tgFail message).2 ++
     (if enableEmail then (send_email_notification env symbol emFail message).2 else []))

/-- Environment with both channels fully configured. -/
def envFull : Env :=
  { TELEGRAM_TOKEN := some "t", TELEGRAM_CHAT_ID := some "c"
    EMAIL_SENDER := some "s", EMAIL_PASSWORD := some "p"
    EMAIL_RECEIVER := some "r" }

/-- Environment with Telegram credentials unset and email configured. -/
def envTgMissing : Env :=
  { TELEGRAM_TOKEN := none, TELEGRAM_CHAT_ID := none
    EMAIL_SENDER := some "s", EMAIL_PASSWORD := some "p"
    EMAIL_RECEIVER := some "r" }

/-! ## Theorems -/

theorem pandasLt_iff (a b : Option ℚ) :
    pandasLt a b = true ↔ ∃ x y, a = some x ∧ b = some y ∧ x < y := by
  cases a <;> cases b <;> simp [pandasLt]

theorem pandasGt_iff (a b : Option ℚ) :
    pandasGt a b = true ↔ ∃ x y, a = some x ∧ b = some y ∧ y < x := by
  cases a <;> cases b <;> simp [pandasGt]

theorem sellSignalRow_imp_not_buySignalRow (r : Row)
    (h : sellSignalRow r = true) : buySignalRow r = false := by
  unfold sellSignalRow at h
  simp only [Bool.and_eq_true] at h
  rcases (pandasLt_iff _ _).mp h.1.1 with ⟨m, s, hm, hs, hlt⟩
  have hgt : pandasGt r.macd r.signal = false := by
    rw [hm, hs]
    simp [pandasGt, not_lt.mpr (le_of_lt hlt)]
  unfold buySignalRow
  simp [hgt]

theorem evaluateLatest_eq_buy_iff (r : Row) :
    evaluateLatest r = SignalState.BUY ↔ buySignalRow r = true := by
  unfold evaluateLatest
  cases hb : buySignalRow r <;> cases hs : sellSignalRow r <;> simp

theorem evaluateLatest_eq_sell_iff (r : Row) :
    evaluateLatest r = SignalState.SELL ↔ sellSignalRow r = true := by
  cases hb : buySignalRow r with
  | false => cases hs : sellSignalRow r <;> simp [evaluateLatest, hb, hs]
  | true =>
    have hs : sellSignalRow r = false := by
      cases hs : sellSignalRow r
      · rfl
      · exact absurd (sellSignalRow_imp_not_buySignalRow r hs) (by simp [hb])
    simp [evaluateLatest, hb, hs]

/-- C1 (counterexample): the claim says that a row in which any of rsi,
macd, macd_signal, bb_low, bb_high is undefined is classified NEUTRAL;
but `Buy_Signal` (line 94) never reads `BB_High`, so a row whose only
undefined input is `bb_high` and whose BUY conditions hold is classified
BUY. -/
theorem C1_counterexample :
    c1Row.bbHigh = none ∧ evaluateLatest c1Row = SignalState.BUY := by
  constructor
  · rfl
  · decide

/-- C1 (amended): the row is BUY iff macd, macd_signal, rsi, close and
bb_low are defined with macd > macd_signal, rsi < 30 and close < bb_low;
it is SELL iff macd, macd_signal, rsi, close and bb_high are defined with
macd < macd_signal, rsi > 70 and close > bb_high; NEUTRAL otherwise.  A
rule can only fire when every input it reads is defined, so undefined
rsi, macd or macd_signal forces NEUTRAL, but bb_high does not gate BUY
and bb_low does not gate SELL. -/
theorem C1_amended (r : Row) :
    (evaluateLatest r = SignalState.BUY ↔
      (∃ m s, r.macd = some m ∧ r.signal = some s ∧ s < m) ∧
      (∃ x, r.rsi = some x ∧ x < 30) ∧
      (∃ c bl, r.close = some c ∧ r.bbLow = some bl ∧ c < bl)) ∧
    (evaluateLatest r = SignalState.SELL ↔
      (∃ m s, r.macd = some m ∧ r.signal = some s ∧ m < s) ∧
      (∃ x, r.rsi = some x ∧ 70 < x) ∧
      (∃ c bh, r.close = some c ∧ r.bbHigh = some bh ∧ bh < c)) := by
  constructor
  · rw [evaluateLatest_eq_buy_iff]
    unfold buySignalRow
    simp only [Bool.and_eq_true, pandasLt_iff, pandasGt_iff]
    constructor
    · rintro ⟨⟨⟨m, s, hm, hs, h1⟩, ⟨x, t, hx, ht, h2⟩⟩, ⟨c, bl, hc, hbl, h3⟩⟩
      obtain rfl : (30 : ℚ) = t := Option.some_inj.mp ht
      exact ⟨⟨m, s, hm, hs, h1⟩, ⟨x, hx, h2⟩, ⟨c, bl, hc, hbl, h3⟩⟩
    · rintro ⟨⟨m, s, hm, hs, h1⟩, ⟨x, hx, h2⟩, ⟨c, bl, hc, hbl, h3⟩⟩
      exact ⟨⟨⟨m, s, hm, hs, h1⟩, ⟨x, 30, hx, rfl, h2⟩⟩, ⟨c, bl, hc, hbl, h3⟩⟩
  · rw [evaluateLatest_eq_sell_iff]
    unfold sellSignalRow
    simp only [Bool.and_eq_true, pandasLt_iff, pandasGt_iff]
    constructor
    · rintro ⟨⟨⟨m, s, hm, hs, h1⟩, ⟨x, t, hx, ht, h2⟩⟩, ⟨c, bh, hc, hbh, h3⟩⟩
      obtain rfl : (70 : ℚ) = t := Option.some_inj.mp ht
      exact ⟨⟨m, s, hm, hs, h1⟩, ⟨x, hx, h2⟩, ⟨c, bh, hc, hbh, h3⟩⟩
    · rintro ⟨⟨m, s, hm, hs, h1⟩, ⟨x, hx, h2⟩, ⟨c, bh, hc, hbh, h3⟩⟩
      exact ⟨⟨⟨m, s, hm, hs, h1⟩, ⟨x, 70, hx, rfl, h2⟩⟩, ⟨c, bh, hc, hbh, h3⟩⟩

theorem filter_close_isEmpty_false :
    ∀ (l : List Row), l.all (fun r => r.close.isNone) = false →
      (l.filter (fun r => r.close.isSome)).isEmpty = false := by
  intro l
  induction l with
  | nil => intro h; exact absurd h (by simp)
  | cons r rs ih =>
    intro h
    cases hc : r.close with
    | some q => simp [List.filter_cons, hc]
    | none =>
      simp only [List.all_cons, hc, Option.isNone_none, Bool.true_and] at h
      simp [List.filter_cons, hc, ih h]

theorem dropna_isEmpty_false (df : Frame)
    (hv : df.rows.all (fun r => r.close.isNone) = false) :
    (dropnaClose df).rows.isEmpty = false :=
  filter_close_isEmpty_false df.rows hv

theorem setColumnRows_map_closeExtra (set : Row → Option ℚ → Row)
    (hset : ∀ r v, closeExtra (set r v) = closeExtra r) :
    ∀ (rows : List Row) (vs : List (Option ℚ)),
      (setColumnRows set rows vs).map closeExtra = rows.map closeExtra := by
  intro rows
  induction rows with
  | nil => intro vs; cases vs <;> rfl
  | cons r rs ih =>
    intro vs
    cases vs with
    | nil => simp [setColumnRows, hset, ih]
    | cons v vs => simp [setColumnRows, hset, ih]

theorem setRSI_rows_closeExtra (df : Frame) (v : List (Option ℚ)) :
    (setRSI df v).rows.map closeExtra = df.rows.map closeExtra :=
  setColumnRows_map_closeExtra (fun r x => { r with rsi := x }) (fun _ _ => rfl) df.rows v

theorem setMACD_rows_closeExtra (df : Frame) (v : List (Option ℚ)) :
    (setMACD df v).rows.map closeExtra = df.rows.map closeExtra :=
  setColumnRows_map_closeExtra (fun r x => { r with macd := x }) (fun _ _ => rfl) df.rows v

theorem setSignalCol_rows_closeExtra (df : Frame) (v : List (Option ℚ)) :
    (setSignalCol df v).rows.map closeExtra = df.rows.map closeExtra :=
  setColumnRows_map_closeExtra (fun r x => { r with signal := x }) (fun _ _ => rfl) df.rows v

theorem setBBHigh_rows_closeExtra (df : Frame) (v : List (Option ℚ)) :
    (setBBHigh df v).rows.map closeExtra = df.rows.map closeExtra :=
  setColumnRows_map_closeExtra (fun r x => { r with bbHigh := x }) (fun _ _ => rfl) df.rows v

theorem setBBLow_rows_closeExtra (df : Frame) (v : List (Option ℚ)) :
    (setBBLow df v).rows.map closeExtra = df.rows.map closeExtra :=
  setColumnRows_map_closeExtra (fun r x => { r with bbLow := x }) (fun _ _ => rfl) df.rows v

theorem setBuy_rows_closeExtra (df : Frame) :
    (setBuy df).rows.map closeExtra = df.rows.map closeExtra := by
  simp only [setBuy, List.map_map]
  rfl

theorem setSell_rows_closeExtra (df : Frame) :
    (setSell df).rows.map closeExtra = df.rows.map closeExtra := by
  simp only [setSell, List.map_map]
  rfl

/-- C2: for a frame whose Close column is missing or all-NaN,
`compute_signals` renders the no-valid-data error (`st.error`, line 79)
and returns the input frame unchanged: in particular no indicator column
is added and no fabricated (zero or otherwise) indicator value is ever
produced. -/
theorem C2_no_valid_close (ta : TaLib) (df : Frame) (p1 p2 p3 p4 : Nat)
    (h : df.hasClose = false ∨ df.rows.all (fun r => r.close.isNone) = true) :
    computeSignals ta df p1 p2 p3 p4 = ([closeMissingMsg], df) := by
  unfold computeSignals
  rcases h with h | h <;> simp [h]

/-- C2 (witness): `pd.DataFrame()` has no Close column, so
`compute_signals` errors out and hands it back unchanged. -/
theorem C2_witness :
    (emptyFrame.hasClose = false ∨
      emptyFrame.rows.all (fun r => r.close.isNone) = true) ∧
    computeSignals taOk emptyFrame 14 12 26 9 = ([closeMissingMsg], emptyFrame) :=
  ⟨Or.inl rfl, C2_no_valid_close taOk emptyFrame 14 12 26 9 (Or.inl rfl)⟩

/-- C3 (counterexample): if `macd.macd()` raises after `df["RSI"]` was
assigned, the `except` branch renders the error and `return df` hands
back a frame that has an RSI column but no MACD column — a partial frame
is returned, refuting the claim. -/
theorem C3_counterexample :
    (computeSignals taMacdFails sampleDf 14 12 26 9).2.hasRSI = true ∧
    (computeSignals taMacdFails sampleDf 14 12 26 9).2.hasMACD = false ∧
    (computeSignals taMacdFails sampleDf 14 12 26 9).1 =
      [indicatorErrMsg "degenerate input"] := by
  refine ⟨rfl, rfl, rfl⟩

/-- C3 (amended): when an indicator computation raises, the whole
`compute_signals` call renders the indicator-failure error and returns
the frame as mutated so far; columns assigned before the failing call
survive, so a partial frame (here: RSI present, MACD and the rest
absent) can be returned to the caller. -/
theorem C3_amended (ta : TaLib) (df : Frame) (p1 p2 p3 p4 : Nat)
    (l : List (Option ℚ)) (e : String)
    (hc : df.hasClose = true)
    (hv : df.rows.all (fun r => r.close.isNone) = false)
    (h1 : ta.rsiNew (closesOf (dropnaClose df)) p1 = .ok ())
    (h2 : ta.macdNew (closesOf (dropnaClose df)) p2 p3 p4 = .ok ())
    (h3 : ta.bbNew (closesOf (dropnaClose df)) = .ok ())
    (h4 : ta.rsiVal (closesOf (dropnaClose df)) p1 = .ok l)
    (h5 : ta.macdVal (closesOf (dropnaClose df)) p2 p3 p4 = .error e) :
    computeSignals ta df p1 p2 p3 p4 =
      ([indicatorErrMsg e], setRSI (dropnaClose df) l) ∧
    (setRSI (dropnaClose df) l).hasRSI = true ∧
    (setRSI (dropnaClose df) l).hasMACD = df.hasMACD := by
  refine ⟨?_, rfl, rfl⟩
  unfold computeSignals
  simp [hc, hv, dropna_isEmpty_false df hv, h1, h2, h3, h4, h5]

/-- C3 (witness): the amended statement at the concrete failing library
run `taMacdFails` on `sampleDf`. -/
theorem C3_witness :
    (taMacdFails.macdVal (closesOf (dropnaClose sampleDf)) 12 26 9 =
      .error "degenerate input") ∧
    computeSignals taMacdFails sampleDf 14 12 26 9 =
      ([indicatorErrMsg "degenerate input"], setRSI (dropnaClose sampleDf) [some 100]) := by
  have h := C3_amended taMacdFails sampleDf 14 12 26 9 [some 100] "degenerate input"
    rfl rfl rfl rfl rfl rfl rfl
  exact ⟨rfl, h.1⟩

/-- C8: `compute_signals` is deterministic and keeps no state across
runs: re-running it on the identical frame with identical parameters and
the identical library, after an earlier run already appended its
messages to the session, returns the identical frame (identical RSI,
MACD, Signal, BB_High, BB_Low values). -/
theorem C8_deterministic (w : List String) (ta : TaLib) (df : Frame)
    (p1 p2 p3 p4 : Nat) :
    (computeSignalsRun (computeSignalsRun w ta df p1 p2 p3 p4).1 ta df p1 p2 p3 p4).2 =
      (computeSignalsRun w ta df p1 p2 p3 p4).2 := rfl

/-- C10: on the successful path (valid close present, every library call
returns), `compute_signals` renders no error, the returned frame carries
the Close column plus the seven appended columns RSI, MACD, Signal,
BB_High, BB_Low, Buy_Signal, Sell_Signal, and its rows are exactly the
input rows with a defined Close — in order, with the Close value and
every other original column value unchanged. -/
theorem C10_success_path (ta : TaLib) (df : Frame) (p1 p2 p3 p4 : Nat)
    (l4 l5 l6 l7 l8 : List (Option ℚ))
    (hc : df.hasClose = true)
    (hv : df.rows.all (fun r => r.close.isNone) = false)
    (h1 : ta.rsiNew (closesOf (dropnaClose df)) p1 = .ok ())
    (h2 : ta.macdNew (closesOf (dropnaClose df)) p2 p3 p4 = .ok ())
    (h3 : ta.bbNew (closesOf (dropnaClose df)) = .ok ())
    (h4 : ta.rsiVal (closesOf (dropnaClose df)) p1 = .ok l4)
    (h5 : ta.macdVal (closesOf (dropnaClose df)) p2 p3 p4 = .ok l5)
    (h6 : ta.macdSignalVal (closesOf (dropnaClose df)) p2 p3 p4 = .ok l6)
    (h7 : ta.bbHighVal (closesOf (dropnaClose df)) = .ok l7)
    (h8 : ta.bbLowVal (closesOf (dropnaClose df)) = .ok l8) :
    (computeSignals ta df p1 p2 p3 p4).1 = [] ∧
    ((computeSignals ta df p1 p2 p3 p4).2.hasClose = true ∧
     (computeSignals ta df p1 p2 p3 p4).2.hasRSI = true ∧
     (computeSignals ta df p1 p2 p3 p4).2.hasMACD = true ∧
     (computeSignals ta df p1 p2 p3 p4).2.hasSignal = true ∧
     (computeSignals ta df p1 p2 p3 p4).2.hasBBHigh = true ∧
     (computeSignals ta df p1 p2 p3 p4).2.hasBBLow = true ∧
     (computeSignals ta df p1 p2 p3 p4).2.hasBuy = true ∧
     (computeSignals ta df p1 p2 p3 p4).2.hasSell = true) ∧
    (computeSignals ta df p1 p2 p3 p4).2.rows.map closeExtra =
      (df.rows.filter (fun r => r.close.isSome)).map closeExtra := by
  have key : computeSignals ta df p1 p2 p3 p4 =
      ([], setSell (setBuy (setBBLow (setBBHigh (setSignalCol
        (setMACD (setRSI (dropnaClose df) l4) l5) l6) l7) l8))) := by
    unfold computeSignals
    simp [hc, hv, dropna_isEmpty_false df hv, h1, h2, h3, h4, h5, h6, h7, h8]
  rw [key]
  refine ⟨rfl, ⟨hc, rfl, rfl, rfl, rfl, rfl, rfl, rfl⟩, ?_⟩
  rw [setSell_rows_closeExtra, setBuy_rows_closeExtra, setBBLow_rows_closeExtra,
    setBBHigh_rows_closeExtra, setSignalCol_rows_closeExtra,
    setMACD_rows_closeExtra, setRSI_rows_closeExtra]
  rfl

/-- C10 (witness): the successful path on the concrete two-row frame
`sampleDf2` (one valid close, one NaN close) with the always-succeeding
library `taOk`. -/
theorem C10_witness :
    (sampleDf2.hasClose = true ∧
      sampleDf2.rows.all (fun r => r.close.isNone) = false) ∧
    (computeSignals taOk sampleDf2 14 12 26 9).1 = [] ∧
    (computeSignals taOk sampleDf2 14 12 26 9).2.rows.map closeExtra =
      (sampleDf2.rows.filter (fun r => r.close.isSome)).map closeExtra := by
  have h := C10_success_path taOk sampleDf2 14 12 26 9
    [some 100] [some 100] [some 100] [some 100] [some 100]
    rfl rfl rfl rfl rfl rfl rfl rfl rfl rfl
  exact ⟨⟨rfl, rfl⟩, h.1, h.2.2⟩

/-- C4 (counterexample): the claim bounds the fetch cache TTL by the
shortest supported refresh interval, 10 seconds; the decorator at line 30
uses `ttl=300`. -/
theorem C4_counterexample :
    refresh_interval_min = 10 ∧
    ¬ (get_stock_data_cache_ttl ≤ refresh_interval_min) := by
  decide

/-- C4 (amended): the fetch cache TTL is 300 seconds — equal to the
longest configurable refresh interval, and strictly greater than the
10-second shortest one. -/
theorem C4_amended :
    get_stock_data_cache_ttl = 300 ∧ refresh_interval_max = 300 ∧
    refresh_interval_min < get_stock_data_cache_ttl := by
  decide

/-- C5 (counterexample): tick N at t=0 fails (provider raises) and the
empty frame is cached under the 300 s TTL; tick N+1 at t=10 (refresh
interval 10 s, the slider minimum) is a cache hit: no provider call is
made and the cached failed result is reused, refuting the claim. -/
theorem C5_counterexample :
    (cachedGetStockData get_stock_data_cache_ttl 0 "AAPL"
      (.raises "ConnectionError") ⟨none⟩).frame = emptyFrame ∧
    (cachedGetStockData get_stock_data_cache_ttl 10 "AAPL" (.returns sampleRaw)
      (cachedGetStockData get_stock_data_cache_ttl 0 "AAPL"
        (.raises "ConnectionError") ⟨none⟩).cache).providerCalled = false ∧
    (cachedGetStockData get_stock_data_cache_ttl 10 "AAPL" (.returns sampleRaw)
      (cachedGetStockData get_stock_data_cache_ttl 0 "AAPL"
        (.raises "ConnectionError") ⟨none⟩).cache).frame = emptyFrame := by
  refine ⟨rfl, rfl, rfl⟩

/-- C5 (amended): a failed fetch's empty-frame result is cached like any
other return value; any later tick strictly within the 300 s TTL reuses
the cached failed result without contacting the provider, and only a
tick at least 300 s after the failed fetch performs a fresh fetch
attempt. -/
theorem C5_amended (now1 now2 now3 : Nat) (sym : String)
    (o1 o2 o3 : ProviderOutcome)
    (hfail : (get_stock_data sym o1).2 = emptyFrame)
    (h12 : now2 - now1 < get_stock_data_cache_ttl)
    (h13 : get_stock_data_cache_ttl ≤ now3 - now1) :
    (cachedGetStockData get_stock_data_cache_ttl now1 sym o1 ⟨none⟩).frame = emptyFrame ∧
    (cachedGetStockData get_stock_data_cache_ttl now2 sym o2
      (cachedGetStockData get_stock_data_cache_ttl now1 sym o1 ⟨none⟩).cache).providerCalled = false ∧
    (cachedGetStockData get_stock_data_cache_ttl now2 sym o2
      (cachedGetStockData get_stock_data_cache_ttl now1 sym o1 ⟨none⟩).cache).frame = emptyFrame ∧
    (cachedGetStockData get_stock_data_cache_ttl now3 sym o3
      (cachedGetStockData get_stock_data_cache_ttl now1 sym o1 ⟨none⟩).cache).providerCalled = true := by
  have ht1 : cachedGetStockData get_stock_data_cache_ttl now1 sym o1 ⟨none⟩ =
      ⟨emptyFrame, ⟨some ⟨emptyFrame, now1⟩⟩, true⟩ := by
    simp [cachedGetStockData, hfail]
  rw [ht1]
  refine ⟨rfl, ?_, ?_, ?_⟩
  · simp [cachedGetStockData, h12]
  · simp [cachedGetStockData, h12]
  · simp [cachedGetStockData, not_lt.mpr h13]

/-- C5 (witness): the amended statement at the concrete run — failure at
t=0, cache hit at t=10, fresh fetch at t=300. -/
theorem C5_witness :
    ((get_stock_data "AAPL" (.raises "ConnectionError")).2 = emptyFrame ∧
      10 - 0 < get_stock_data_cache_ttl ∧
      get_stock_data_cache_ttl ≤ 300 - 0) ∧
    (cachedGetStockData get_stock_data_cache_ttl 10 "AAPL" (.returns sampleRaw)
      (cachedGetStockData get_stock_data_cache_ttl 0 "AAPL"
        (.raises "ConnectionError") ⟨none⟩).cache).providerCalled = false ∧
    (cachedGetStockData get_stock_data_cache_ttl 300 "AAPL" (.returns sampleRaw)
      (cachedGetStockData get_stock_data_cache_ttl 0 "AAPL"
        (.raises "ConnectionError") ⟨none⟩).cache).providerCalled = true := by
  have h := C5_amended 0 10 300 "AAPL" (.raises "ConnectionError")
    (.returns sampleRaw) (.returns sampleRaw) rfl (by decide) (by decide)
  exact ⟨⟨rfl, by decide, by decide⟩, h.2.1, h.2.2.2⟩

/-- C6 (counterexample): with full credentials an email dispatch performs
a real SMTP attempt, and that attempt's connection is opened without any
timeout argument (line 70), so the attempt is not bounded by a finite
per-attempt timeout — refuting the claim that every enabled-channel
attempt is bounded. -/
theorem C6_counterexample :
    (send_email_notification envFull "AAPL" none "m").1 =
      [SendEvent.email smtpSslCall "s" "r" "Stock Signal Alert for AAPL" "m"] ∧
    eventTimeout
      (SendEvent.email smtpSslCall "s" "r" "Stock Signal Alert for AAPL" "m") =
      none := by
  refine ⟨rfl, rfl⟩

/-- C6 (amended): every Telegram send attempt carries the finite
5-second timeout of line 57, while every email send attempt opens its
SMTP connection with no timeout at all (line 70) and so is not bounded. -/
theorem C6_amended (env : Env) (sym m1 m2 : String) (f1 f2 : Option String)
    (e1 e2 : SendEvent)
    (h1 : e1 ∈ (send_telegram_message env f1 m1).1)
    (h2 : e2 ∈ (send_email_notification env sym f2 m2).1) :
    eventTimeout e1 = some 5 ∧ eventTimeout e2 = none := by
  constructor
  · unfold send_telegram_message at h1
    cases hcfg : telegramConfigured env with
    | false => simp [hcfg] at h1
    | true =>
      cases f1 with
      | none =>
        simp [hcfg] at h1
        subst h1
        rfl
      | some c =>
        simp [hcfg] at h1
        subst h1
        rfl
  · unfold send_email_notification at h2
    cases hcfg : emailConfigured env with
    | false => simp [hcfg] at h2
    | true =>
      cases f2 with
      | none =>
        simp [hcfg] at h2
        subst h2
        rfl
      | some c =>
        simp [hcfg] at h2
        subst h2
        rfl

/-- C6 (witness): the amended statement at the fully configured
environment, one concrete attempt per channel. -/
theorem C6_witness :
    ((SendEvent.telegram (telegramHttpCall "t") "c" "m") ∈
        (send_telegram_message envFull none "m").1 ∧
      (SendEvent.email smtpSslCall "s" "r" "Stock Signal Alert for AAPL" "m") ∈
        (send_email_notification envFull "AAPL" none "m").1) ∧
    eventTimeout (SendEvent.telegram (telegramHttpCall "t") "c" "m") = some 5 ∧
    eventTimeout
      (SendEvent.email smtpSslCall "s" "r" "Stock Signal Alert for AAPL" "m") =
      none := by
  have hm1 : (SendEvent.telegram (telegramHttpCall "t") "c" "m") ∈
      (send_telegram_message envFull none "m").1 := List.Mem.head _
  have hm2 : (SendEvent.email smtpSslCall "s" "r" "Stock Signal Alert for AAPL" "m") ∈
      (send_email_notification envFull "AAPL" none "m").1 := List.Mem.head _
  exact ⟨⟨hm1, hm2⟩, C6_amended envFull "AAPL" "m" "m" none none _ _ hm1 hm2⟩

/-- C7: in a dispatch where exactly one channel has complete credentials
(and email is enabled), exactly one send attempt is performed in total;
the configured channel attempts exactly once, the credential-missing
channel attempts zero times, and the dispatch's warning output is
exactly the configured channel's — the skipped channel contributes no
error. -/
theorem C7_missing_creds (env : Env) (sym : String)
    (tgFail emFail : Option String) (m : String)
    (h : (telegramConfigured env = false ∧ emailConfigured env = true) ∨
         (telegramConfigured env = true ∧ emailConfigured env = false)) :
    ((notifySignal env true sym tgFail emFail m).1).length = 1 ∧
    ((notifySignal env true sym tgFail emFail m).1.filter isTelegramEvent).length =
      (if telegramConfigured env then 1 else 0) ∧
    ((notifySignal env true sym tgFail emFail m).1.filter isEmailEvent).length =
      (if emailConfigured env then 1 else 0) ∧
    (notifySignal env true sym tgFail emFail m).2 =
      (if telegramConfigured env
       then (send_telegram_message env tgFail m).2
       else (send_email_notification env sym emFail m).2) := by
  rcases h with ⟨ht, he⟩ | ⟨ht, he⟩
  · cases emFail with
    | none =>
      simp [notifySignal, send_telegram_message, send_email_notification,
        ht, he, isTelegramEvent, isEmailEvent]
    | some c =>
      simp [notifySignal, send_telegram_message, send_email_notification,
        ht, he, isTelegramEvent, isEmailEvent]
  · cases tgFail with
    | none =>
      simp [notifySignal, send_telegram_message, send_email_notification,
        ht, he, isTelegramEvent, isEmailEvent]
    | some c =>
      simp [notifySignal, send_telegram_message, send_email_notification,
        ht, he, isTelegramEvent, isEmailEvent]

/-- C7 (witness): Telegram credentials unset, email fully configured and
enabled: the dispatch performs exactly one send attempt. -/
theorem C7_witness :
    (telegramConfigured envTgMissing = false ∧
      emailConfigured envTgMissing = true) ∧
    ((notifySignal envTgMissing true "AAPL" none none
        "Buy Signal for AAPL at 100.00").1).length = 1 := by
  have h := C7_missing_creds envTgMissing "AAPL" none none
    "Buy Signal for AAPL at 100.00" (Or.inl ⟨rfl, rfl⟩)
  exact ⟨⟨rfl, rfl⟩, h.1⟩

/-- C9: `get_stock_data` maps all three failure classes — provider
exception, empty provider result, and all-non-numeric Close — to the
same return value, the empty `pd.DataFrame()`; the caller cannot tell
from the returned frame which failure occurred.  (Totality is by
construction: the embedding is a total function, as the Python `except
Exception` wrapper converts every raise into this same return.) -/
theorem C9_failure_classes (sym c : String) (raw1 raw2 : RawFrame)
    (h1 : raw1.rows = [])
    (h2a : raw2.hasClose = true) (h2b : raw2.rows.isEmpty = false)
    (h2c : (raw2.rows.map mkRow).all (fun r => r.close.isNone) = true) :
    (get_stock_data sym (.raises c)).2 = emptyFrame ∧
    (get_stock_data sym (.returns raw1)).2 = emptyFrame ∧
    (get_stock_data sym (.returns raw2)).2 = emptyFrame := by
  refine ⟨rfl, ?_, ?_⟩
  · simp [get_stock_data, h1]
  · simp [get_stock_data, h2a, h2b, h2c]

/-- C9 (witness): the three failure classes at concrete inputs. -/
theorem C9_witness :
    (rawEmpty.rows = [] ∧ rawBadClose.hasClose = true ∧
      rawBadClose.rows.isEmpty = false ∧
      (rawBadClose.rows.map mkRow).all (fun r => r.close.isNone) = true) ∧
    ((get_stock_data "AAPL" (.raises "ConnectionError")).2 = emptyFrame ∧
     (get_stock_data "AAPL" (.returns rawEmpty)).2 = emptyFrame ∧
     (get_stock_data "AAPL" (.returns rawBadClose)).2 = emptyFrame) :=
  ⟨⟨rfl, rfl, rfl, rfl⟩,
    C9_failure_classes "AAPL" "ConnectionError" rawEmpty rawBadClose rfl rfl rfl rfl⟩

end SSD
